import Mathlib

/-!
Verification of `src/c/proj_wrapper.c` from the crataegus repository.

The single exported function `epsg4979_from_epsg9705` converts a
latitude/longitude/MSL-height triple (EPSG:9705) into a
latitude/longitude/ellipsoidal-height triple (EPSG:4979) by driving the
external PROJ engine.  We embed the function shallowly:

* C `double` fields become real numbers; the constant `M_PI` becomes `Real.pi`.
* The PROJ engine (`proj_context_create`, `proj_create_crs_to_crs`,
  `proj_trans`, `proj_errno`) is external to the repository, so it is
  modelled abstractly by an `Engine` record fixing one behaviour of the
  engine: whether context creation succeeds, whether CRS-to-CRS resolution
  succeeds, the forward transformation on coordinates, and whether the
  last-operation error indicator is set after transforming a coordinate.
* The two pointer parameters are modelled by an `Option` input (a null
  input pointer is `none`) and a `Bool` saying whether the output pointer
  is non-null; the value written through the output pointer is returned as
  an `Option EPSG4979` (`none` = the function never wrote to the output).
* Every resource acquisition/release and every call into `proj_trans` is
  recorded in an event trace so that resource balance and
  "no side effects before the null check" are provable statements.
-/

namespace Crataegus

/-- LLA coordinates in EPSG:9705 (WGS84 Lat/Lon + MSL): `lat`/`lon` in
degrees, `alt` in meters above MSL.  Mirrors the C struct `EPSG9705`. -/
structure EPSG9705 where
  lat : ℝ
  lon : ℝ
  alt : ℝ

/-- LLA coordinates in EPSG:4979 (WGS84 3D): `lat`/`lon` in degrees, `alt`
in meters above the WGS84 ellipsoid.  Mirrors the C struct `EPSG4979`. -/
structure EPSG4979 where
  lat : ℝ
  lon : ℝ
  alt : ℝ

/-- A PROJ coordinate, in the `lpzt` view used by the wrapper:
`lam` = longitude in radians, `phi` = latitude in radians, `z` = height in
meters, `t` = the unused fourth (time) coordinate.  `proj_coord(a,b,c,d)`
is `⟨a, b, c, d⟩` in this view. -/
structure PJCoord where
  lam : ℝ
  phi : ℝ
  z : ℝ
  t : ℝ

/-- Observable effects of one call to the wrapper: resource acquisitions
and releases, plus each invocation of the forward transformation with the
coordinate it was given. -/
inductive Event where
  | ctxCreate
  | ctxDestroy
  | pjCreate
  | pjDestroy
  | transCall (c : PJCoord)

/-- `true` exactly on `Event.ctxCreate`. -/
def Event.isCtxCreate : Event → Bool
  | .ctxCreate => true
  | _ => false

/-- `true` exactly on `Event.ctxDestroy`. -/
def Event.isCtxDestroy : Event → Bool
  | .ctxDestroy => true
  | _ => false

/-- `true` exactly on `Event.pjCreate`. -/
def Event.isPjCreate : Event → Bool
  | .pjCreate => true
  | _ => false

/-- `true` exactly on `Event.pjDestroy`. -/
def Event.isPjDestroy : Event → Bool
  | .pjDestroy => true
  | _ => false

/-- One fixed behaviour of the external PROJ engine, which the wrapper
treats as a black box:

* `ctxCreateOk`: `proj_context_create()` returns a non-null context;
* `crsToCrsOk`: `proj_create_crs_to_crs(ctx, "EPSG:9705", "EPSG:4979",
  NULL)` returns a non-null transformation;
* `trans c`: the coordinate returned by `proj_trans(P, PJ_FWD, c)`;
* `errnoAfter c`: whether `proj_errno(P) != 0` holds after transforming
  `c`. -/
structure Engine where
  ctxCreateOk : Bool
  crsToCrsOk : Bool
  trans : PJCoord → PJCoord
  errnoAfter : PJCoord → Bool

/-- The observable outcome of one call to `epsg4979_from_epsg9705`:
the returned status code, the value written through the output pointer
(`none` if the output was never written), and the event trace. -/
structure CallResult where
  status : Int
  output : Option EPSG4979
  events : List Event

/-- The internal coordinate the wrapper hands to `proj_trans`:
`proj_coord(lon_rad, lat_rad, input->alt, 0)` after the degree-to-radian
conversions `lat_rad = input->lat * M_PI / 180.0` and
`lon_rad = input->lon * M_PI / 180.0`. -/
noncomputable def projCoordIn (input : EPSG9705) : PJCoord :=
  ⟨input.lon * Real.pi / 180, input.lat * Real.pi / 180, input.alt, 0⟩

/-- Shallow embedding of the C function `epsg4979_from_epsg9705` from
`src/c/proj_wrapper.c`, for one fixed engine behaviour `e`.  `input` is
`none` when the input pointer is null; `outputPtr` is `false` when the
output pointer is null. -/
noncomputable def epsg4979_from_epsg9705 (e : Engine) (input : Option EPSG9705)
    (outputPtr : Bool) : CallResult :=
  match input, outputPtr with
  | none, _ => ⟨-1, none, []⟩
  | some _, false => ⟨-1, none, []⟩
  | some inp, true =>
    if e.ctxCreateOk = false then
      ⟨-2, none, []⟩
    else if e.crsToCrsOk = false then
      ⟨-3, none, [.ctxCreate, .ctxDestroy]⟩
    else
      let c_in := projCoordIn inp
      let c_out := e.trans c_in
      if e.errnoAfter c_in = true then
        ⟨-4, none, [.ctxCreate, .pjCreate, .transCall c_in, .pjDestroy, .ctxDestroy]⟩
      else
        ⟨0, some ⟨c_out.phi * 180 / Real.pi, c_out.lam * 180 / Real.pi, c_out.z⟩,
          [.ctxCreate, .pjCreate, .transCall c_in, .pjDestroy, .ctxDestroy]⟩

/-- An engine fixture used by concrete witnesses: every resource operation
succeeds, the transformation adds a constant geoid undulation of `-34`
meters to the height and leaves every other component unchanged, and the
error indicator is never set. -/
noncomputable def engineFixture : Engine :=
  ⟨true, true, fun c => ⟨c.lam, c.phi, c.z + -34, c.t⟩, fun _ => false⟩

/-- A concrete input fixture (Statue of Liberty, MSL height 0). -/
noncomputable def inputFixture : EPSG9705 :=
  ⟨40.6892, -74.0445, 0⟩

/-- C4: if the input pointer or the output pointer is null,
`epsg4979_from_epsg9705` returns `-1` (InvalidArgument) without writing the
output, and with an empty event trace: no resource is acquired, the
missing pointer is never dereferenced, and there are no side effects. -/
theorem null_pointer_rejected (e : Engine) (input : Option EPSG9705)
    (outputPtr : Bool) (h : input = none ∨ outputPtr = false) :
    epsg4979_from_epsg9705 e input outputPtr = ⟨-1, none, []⟩ := by
  rcases h with h | h
  · subst h; rfl
  · subst h; cases input <;> rfl

/-- Witness for C4 at a concrete call: a null input pointer with a valid
output pointer yields status `-1`, no output write, and no events. -/
theorem null_pointer_rejected_witness :
    ((none : Option EPSG9705) = none ∨ true = false) ∧
      epsg4979_from_epsg9705 engineFixture none true =
        ⟨-1, none, ([] : List Event)⟩ :=
  ⟨Or.inl rfl, null_pointer_rejected engineFixture none true (Or.inl rfl)⟩

/-- C2: the return value of `epsg4979_from_epsg9705` is exactly one of
`0, -1, -2, -3, -4`, in 1:1 correspondence with the error taxonomy:
`-1` iff a pointer is null, `-2` iff context creation fails, `-3` iff the
EPSG:9705→EPSG:4979 transformation cannot be resolved, `-4` iff the
engine's last-operation error indicator is set after the forward
transformation, and `0` iff the call succeeds, which happens exactly when
the output is populated. -/
theorem status_code_taxonomy (e : Engine) (input : Option EPSG9705)
    (outputPtr : Bool) :
    ((epsg4979_from_epsg9705 e input outputPtr).status = -1 ↔
      (input = none ∨ outputPtr = false)) ∧
    ((epsg4979_from_epsg9705 e input outputPtr).status = -2 ↔
      ((∃ inp, input = some inp) ∧ outputPtr = true ∧
        e.ctxCreateOk = false)) ∧
    ((epsg4979_from_epsg9705 e input outputPtr).status = -3 ↔
      ((∃ inp, input = some inp) ∧ outputPtr = true ∧
        e.ctxCreateOk = true ∧ e.crsToCrsOk = false)) ∧
    ((epsg4979_from_epsg9705 e input outputPtr).status = -4 ↔
      (∃ inp, input = some inp ∧ outputPtr = true ∧
        e.ctxCreateOk = true ∧ e.crsToCrsOk = true ∧
        e.errnoAfter (projCoordIn inp) = true)) ∧
    ((epsg4979_from_epsg9705 e input outputPtr).status = 0 ↔
      ((epsg4979_from_epsg9705 e input outputPtr).output.isSome = true)) ∧
    ((epsg4979_from_epsg9705 e input outputPtr).status = 0 ∨
      (epsg4979_from_epsg9705 e input outputPtr).status = -1 ∨
      (epsg4979_from_epsg9705 e input outputPtr).status = -2 ∨
      (epsg4979_from_epsg9705 e input outputPtr).status = -3 ∨
      (epsg4979_from_epsg9705 e input outputPtr).status = -4) := by
  cases input with
  | none => simp [epsg4979_from_epsg9705]
  | some inp =>
    cases outputPtr with
    | false => simp [epsg4979_from_epsg9705]
    | true =>
      cases h1 : e.ctxCreateOk <;> cases h2 : e.crsToCrsOk <;>
        cases h3 : e.errnoAfter (projCoordIn inp) <;>
        simp [epsg4979_from_epsg9705, h1, h2, h3]

/-- Witness for C2 at a concrete call: with the fixture engine and input,
the status is `0` and that is equivalent to the output being populated. -/
theorem status_code_taxonomy_witness :
    (epsg4979_from_epsg9705 engineFixture (some inputFixture) true).status = 0 ↔
      ((epsg4979_from_epsg9705 engineFixture (some inputFixture) true).output.isSome
        = true) :=
  (status_code_taxonomy engineFixture (some inputFixture) true).2.2.2.2.1

/-- C3: atomicity of the output: on every non-zero return the output is
never written (no field of it exists — the written value is `none`), and
on a zero return the output is a complete `EPSG4979` value. -/
theorem output_atomicity (e : Engine) (input : Option EPSG9705)
    (outputPtr : Bool) :
    ((epsg4979_from_epsg9705 e input outputPtr).status ≠ 0 →
      (epsg4979_from_epsg9705 e input outputPtr).output = none) ∧
    ((epsg4979_from_epsg9705 e input outputPtr).status = 0 →
      ∃ out : EPSG4979,
        (epsg4979_from_epsg9705 e input outputPtr).output = some out) := by
  cases input with
  | none => simp [epsg4979_from_epsg9705]
  | some inp =>
    cases outputPtr with
    | false => simp [epsg4979_from_epsg9705]
    | true =>
      cases h1 : e.ctxCreateOk <;> cases h2 : e.crsToCrsOk <;>
        cases h3 : e.errnoAfter (projCoordIn inp) <;>
        simp [epsg4979_from_epsg9705, h1, h2, h3]

/-- Witness for C3 at a concrete call: a null input gives a non-zero
status and an untouched (`none`) output. -/
theorem output_atomicity_witness :
    (epsg4979_from_epsg9705 engineFixture none true).status ≠ 0 ∧
      (epsg4979_from_epsg9705 engineFixture none true).output = none :=
  ⟨by simp [epsg4979_from_epsg9705],
    (output_atomicity engineFixture none true).1
      (by simp [epsg4979_from_epsg9705])⟩

/-- C8: resource balance on every path: in the event trace of any call,
context creations are matched one-to-one by context destructions and
transformation creations by transformation destructions, so no return
path (success, `-1`, `-2`, `-3` or `-4`) leaves a resource unreleased. -/
theorem resource_balance (e : Engine) (input : Option EPSG9705)
    (outputPtr : Bool) :
    ((epsg4979_from_epsg9705 e input outputPtr).events.countP
        Event.isCtxCreate =
      (epsg4979_from_epsg9705 e input outputPtr).events.countP
        Event.isCtxDestroy) ∧
    ((epsg4979_from_epsg9705 e input outputPtr).events.countP
        Event.isPjCreate =
      (epsg4979_from_epsg9705 e input outputPtr).events.countP
        Event.isPjDestroy) := by
  cases input with
  | none => simp [epsg4979_from_epsg9705]
  | some inp =>
    cases outputPtr with
    | false => simp [epsg4979_from_epsg9705]
    | true =>
      cases h1 : e.ctxCreateOk <;> cases h2 : e.crsToCrsOk <;>
        cases h3 : e.errnoAfter (projCoordIn inp) <;>
        simp [epsg4979_from_epsg9705, h1, h2, h3, List.countP_cons,
          Event.isCtxCreate, Event.isCtxDestroy, Event.isPjCreate,
          Event.isPjDestroy]

/-- C6: coordinate ordering: every coordinate handed to the forward
transformation is exactly the longitude-first quadruple
`(longitude_in_radians, latitude_in_radians, height, 0)`, with the unused
fourth coordinate exactly `0`. -/
theorem coordinate_ordering (e : Engine) (inp : EPSG9705) (c : PJCoord)
    (h : Event.transCall c ∈
      (epsg4979_from_epsg9705 e (some inp) true).events) :
    c = ⟨inp.lon * Real.pi / 180, inp.lat * Real.pi / 180, inp.alt, 0⟩ ∧
      c.t = 0 := by
  cases h1 : e.ctxCreateOk <;> cases h2 : e.crsToCrsOk <;>
    cases h3 : e.errnoAfter (projCoordIn inp) <;>
    simp [epsg4979_from_epsg9705, h1, h2, h3] at h <;>
    subst h <;> exact ⟨rfl, rfl⟩

/-- Witness for C6 at a concrete call: the fixture call does invoke the
transformation, and the coordinate it passes is the longitude-first
quadruple with fourth component `0`. -/
theorem coordinate_ordering_witness :
    (Event.transCall (projCoordIn inputFixture) ∈
      (epsg4979_from_epsg9705 engineFixture (some inputFixture) true).events) ∧
    (projCoordIn inputFixture =
      ⟨inputFixture.lon * Real.pi / 180, inputFixture.lat * Real.pi / 180,
        inputFixture.alt, 0⟩ ∧
      (projCoordIn inputFixture).t = 0) :=
  ⟨by simp [epsg4979_from_epsg9705, engineFixture],
    coordinate_ordering engineFixture inputFixture (projCoordIn inputFixture)
      (by simp [epsg4979_from_epsg9705, engineFixture])⟩

/-- C5: angular-unit handling: the latitude and longitude are converted
from degrees to radians by multiplying by `π / 180` before the
transformation is invoked, the resulting angular components are converted
back to degrees by multiplying by `180 / π`, and the height component is
copied into the output with no unit conversion.  (Doubles are modelled as
real numbers, so the conversions are exact.) -/
theorem angular_unit_handling (e : Engine) (inp : EPSG9705)
    (h1 : e.ctxCreateOk = true) (h2 : e.crsToCrsOk = true)
    (h3 : e.errnoAfter (projCoordIn inp) = false) :
    projCoordIn inp =
      ⟨inp.lon * (Real.pi / 180), inp.lat * (Real.pi / 180), inp.alt, 0⟩ ∧
    (epsg4979_from_epsg9705 e (some inp) true).output =
      some ⟨(e.trans (projCoordIn inp)).phi * (180 / Real.pi),
            (e.trans (projCoordIn inp)).lam * (180 / Real.pi),
            (e.trans (projCoordIn inp)).z⟩ := by
  constructor
  · simp [projCoordIn, mul_div_assoc]
  · simp [epsg4979_from_epsg9705, h1, h2, h3, mul_div_assoc]

/-- Witness for C5 at a concrete call, with all engine hypotheses
discharged on the fixture engine. -/
theorem angular_unit_handling_witness :
    projCoordIn inputFixture =
      ⟨inputFixture.lon * (Real.pi / 180), inputFixture.lat * (Real.pi / 180),
        inputFixture.alt, 0⟩ ∧
    (epsg4979_from_epsg9705 engineFixture (some inputFixture) true).output =
      some ⟨(engineFixture.trans (projCoordIn inputFixture)).phi * (180 / Real.pi),
            (engineFixture.trans (projCoordIn inputFixture)).lam * (180 / Real.pi),
            (engineFixture.trans (projCoordIn inputFixture)).z⟩ :=
  angular_unit_handling engineFixture inputFixture rfl rfl rfl

/-- C1: for any engine behaviour that applies a pure vertical geoid shift
(adding the undulation `N` of the location to the height and leaving every
other coordinate component unchanged), a successful call (return `0`)
produces an output whose height equals the input orthometric height plus
`N` at that location, in particular within the 1 millimeter tolerance. -/
theorem height_adds_undulation (e : Engine) (N : PJCoord → ℝ)
    (hvert : ∀ c, e.trans c = ⟨c.lam, c.phi, c.z + N c, c.t⟩)
    (inp : EPSG9705) (out : EPSG4979)
    (h0 : (epsg4979_from_epsg9705 e (some inp) true).status = 0)
    (hout : (epsg4979_from_epsg9705 e (some inp) true).output = some out) :
    |out.alt - (inp.alt + N (projCoordIn inp))| ≤ 1 / 1000 := by
  cases h1 : e.ctxCreateOk <;> cases h2 : e.crsToCrsOk <;>
    cases h3 : e.errnoAfter (projCoordIn inp) <;>
    simp [epsg4979_from_epsg9705, h1, h2, h3] at hout
  subst hout
  simp [hvert, projCoordIn]

/-- Witness for C1 at a concrete call: the fixture engine applies a
constant undulation of `-34` meters, and the output height differs from
input height plus undulation by at most 1 millimeter. -/
theorem height_adds_undulation_witness :
    |(engineFixture.trans (projCoordIn inputFixture)).z -
      (inputFixture.alt + -34)| ≤ 1 / 1000 :=
  height_adds_undulation engineFixture (fun _ => -34) (fun _ => rfl)
    inputFixture
    ⟨(engineFixture.trans (projCoordIn inputFixture)).phi * 180 / Real.pi,
     (engineFixture.trans (projCoordIn inputFixture)).lam * 180 / Real.pi,
     (engineFixture.trans (projCoordIn inputFixture)).z⟩
    rfl rfl

/-- C7: horizontal identity: for any engine behaviour that leaves the
angular components unchanged (the transformation is vertical-only), on
every successful call the output latitude and longitude agree with the
input within `1e-9` degrees (in the real-number model the degrees→radians→
degrees round trip is exact, so the drift is `0`). -/
theorem horizontal_identity (e : Engine) (inp : EPSG9705) (out : EPSG4979)
    (hvert : ∀ c, (e.trans c).phi = c.phi ∧ (e.trans c).lam = c.lam)
    (h0 : (epsg4979_from_epsg9705 e (some inp) true).status = 0)
    (hout : (epsg4979_from_epsg9705 e (some inp) true).output = some out) :
    |out.lat - inp.lat| ≤ 1 / 1000000000 ∧
      |out.lon - inp.lon| ≤ 1 / 1000000000 := by
  have key : ∀ x : ℝ, x * Real.pi / 180 * 180 / Real.pi = x := by
    intro x
    field_simp
  cases h1 : e.ctxCreateOk <;> cases h2 : e.crsToCrsOk <;>
    cases h3 : e.errnoAfter (projCoordIn inp) <;>
    simp [epsg4979_from_epsg9705, h1, h2, h3] at hout
  subst hout
  constructor
  · show |(e.trans (projCoordIn inp)).phi * 180 / Real.pi - inp.lat| ≤
      1 / 1000000000
    rw [(hvert (projCoordIn inp)).1]
    show |inp.lat * Real.pi / 180 * 180 / Real.pi - inp.lat| ≤ 1 / 1000000000
    rw [key, sub_self, abs_zero]
    norm_num
  · show |(e.trans (projCoordIn inp)).lam * 180 / Real.pi - inp.lon| ≤
      1 / 1000000000
    rw [(hvert (projCoordIn inp)).2]
    show |inp.lon * Real.pi / 180 * 180 / Real.pi - inp.lon| ≤ 1 / 1000000000
    rw [key, sub_self, abs_zero]
    norm_num

/-- Witness for C7 at a concrete call on the fixture engine and input. -/
theorem horizontal_identity_witness :
    |(engineFixture.trans (projCoordIn inputFixture)).phi * 180 / Real.pi -
      inputFixture.lat| ≤ 1 / 1000000000 ∧
    |(engineFixture.trans (projCoordIn inputFixture)).lam * 180 / Real.pi -
      inputFixture.lon| ≤ 1 / 1000000000 :=
  horizontal_identity engineFixture inputFixture
    ⟨(engineFixture.trans (projCoordIn inputFixture)).phi * 180 / Real.pi,
     (engineFixture.trans (projCoordIn inputFixture)).lam * 180 / Real.pi,
     (engineFixture.trans (projCoordIn inputFixture)).z⟩
    (fun _ => ⟨rfl, rfl⟩) rfl rfl

/-- An out-of-range input fixture: latitude outside `[-90, 90]` and a
longitude of large magnitude. -/
noncomputable def badInputFixture : EPSG9705 :=
  ⟨200, 100000, 5⟩

/-- C9: beyond the null-pointer check, no validation of the input values
is performed: for every input value (any latitude, longitude or height),
the call never returns `-1` (InvalidArgument); and whenever the engine's
context creation and transformation resolution succeed, the value is
converted and forwarded to the engine unchanged (the transformation is
invoked on `projCoordIn inp`) and the call either succeeds (`0`) or fails
through the engine with `-4` (TransformationApplyError). -/
theorem no_input_value_validation (e : Engine) (inp : EPSG9705) :
    (epsg4979_from_epsg9705 e (some inp) true).status ≠ -1 ∧
    (e.ctxCreateOk = true → e.crsToCrsOk = true →
      (Event.transCall (projCoordIn inp) ∈
        (epsg4979_from_epsg9705 e (some inp) true).events) ∧
      ((epsg4979_from_epsg9705 e (some inp) true).status = 0 ∨
        (epsg4979_from_epsg9705 e (some inp) true).status = -4)) := by
  cases h1 : e.ctxCreateOk <;> cases h2 : e.crsToCrsOk <;>
    cases h3 : e.errnoAfter (projCoordIn inp) <;>
    simp [epsg4979_from_epsg9705, h1, h2, h3]

/-- Witness for C9 at a concrete call: an input with latitude `200` and
longitude `100000` is not rejected; it is forwarded to the engine and the
call returns `0` or `-4`. -/
theorem no_input_value_validation_witness :
    (epsg4979_from_epsg9705 engineFixture (some badInputFixture) true).status
        ≠ -1 ∧
    ((Event.transCall (projCoordIn badInputFixture) ∈
        (epsg4979_from_epsg9705 engineFixture (some badInputFixture)
          true).events) ∧
      ((epsg4979_from_epsg9705 engineFixture (some badInputFixture)
          true).status = 0 ∨
        (epsg4979_from_epsg9705 engineFixture (some badInputFixture)
          true).status = -4)) :=
  ⟨(no_input_value_validation engineFixture badInputFixture).1,
    (no_input_value_validation engineFixture badInputFixture).2 rfl rfl⟩

/-- C10: determinism: for one fixed engine behaviour, the call is a pure
function of the three input fields — two calls whose inputs agree on
`lat`, `lon` and `alt` produce identical results (same status, same
output value, same events).  The input itself is immutable in the model,
matching the `const`-qualified input pointer in the source. -/
theorem deterministic_in_input (e : Engine) (i1 i2 : EPSG9705)
    (outputPtr : Bool) (hlat : i1.lat = i2.lat) (hlon : i1.lon = i2.lon)
    (halti : i1.alt = i2.alt) :
    epsg4979_from_epsg9705 e (some i1) outputPtr =
      epsg4979_from_epsg9705 e (some i2) outputPtr := by
  cases i1
  cases i2
  cases hlat
  cases hlon
  cases halti
  rfl

/-- Witness for C10 at concrete calls on two field-wise equal inputs. -/
theorem deterministic_in_input_witness :
    epsg4979_from_epsg9705 engineFixture (some inputFixture) true =
      epsg4979_from_epsg9705 engineFixture (some ⟨40.6892, -74.0445, 0⟩)
        true :=
  deterministic_in_input engineFixture inputFixture ⟨40.6892, -74.0445, 0⟩
    true rfl rfl rfl

end Crataegus
